import Mathlib

/-!
Verification of `check_azure_resource.py`, a Nagios plugin that fetches an
Azure resource metric and evaluates it against warning/critical thresholds.

The Python code manipulates JSON responses with plain subscripting, so the
embedding models JSON values (`JVal`) together with the Python exceptions
(`PyErr`) those operations can raise.  The plugin's control flow
(`activate` followed by `check_metric`) is modelled as a function from the
CLI configuration and an oracle of remote responses to a terminal outcome
plus the trace of network calls issued.
-/

namespace AzureCheck

/-- JSON values as they appear after Python's `response.json()`: JSON `null`
becomes Python `None`, objects become dicts with string keys. -/
inductive JVal where
  | null
  | bool (b : Bool)
  | num (q : ℚ)
  | str (s : String)
  | arr (elems : List JVal)
  | obj (fields : List (String × JVal))

/-- Python exceptions that unguarded subscripting or attribute access can
raise. -/
inductive PyErr where
  | keyError (k : String)
  | indexError
  | typeError
  | attributeError
deriving DecidableEq

/-- Python `d[k]` with a string key: dict lookup, `KeyError` when the key is
absent, `TypeError` on any non-dict.  JSON objects have unique keys, so
first-match lookup coincides with dict lookup. -/
def JVal.getKey : JVal → String → Except PyErr JVal
  | .obj fields, k =>
    match fields.find? (fun kv => kv.1 == k) with
    | some kv => .ok kv.2
    | none => .error (.keyError k)
  | _, _ => .error .typeError

def listNth {α : Type} : List α → Nat → Option α
  | [], _ => none
  | x :: _, 0 => some x
  | _ :: xs, n + 1 => listNth xs n

/-- Python `x[i]` with a non-negative integer index: list indexing
(`IndexError` out of range), string indexing yields a one-character string,
dict lookup of an integer key in a parsed-JSON dict raises `KeyError`, the
rest raise `TypeError`. -/
def JVal.getIdx : JVal → Nat → Except PyErr JVal
  | .arr xs, i =>
    match listNth xs i with
    | some x => .ok x
    | none => .error .indexError
  | .str s, i =>
    match listNth s.toList i with
    | some c => .ok (.str (String.singleton c))
    | none => .error .indexError
  | .obj _, i => .error (.keyError (toString i))
  | _, _ => .error .typeError

/-- Python falsiness of a JSON-derived value (`not x`). -/
def JVal.falsy : JVal → Bool
  | .null => true
  | .bool b => !b
  | .num q => q == 0
  | .str s => s == ""
  | .arr xs => xs.isEmpty
  | .obj fields => fields.isEmpty

/-- Python `x == s` where `s` is a `str`: only equal strings compare equal,
any other type compares unequal without error. -/
def jvalEqStr (x : JVal) (s : String) : Bool :=
  match x with
  | .str t => t == s
  | _ => false

def charsStartWith : List Char → List Char → Bool
  | [], _ => true
  | _ :: _, [] => false
  | a :: as, b :: bs => a == b && charsStartWith as bs

def charsContain (needle : List Char) : List Char → Bool
  | [] => needle.isEmpty
  | b :: bs => charsStartWith needle (b :: bs) || charsContain needle bs

/-- Python `s in x` for a string `s`: key membership for dicts, element
equality for lists, substring test for strings, `TypeError` otherwise. -/
def pyContains (x : JVal) (s : String) : Except PyErr Bool :=
  match x with
  | .obj fields => .ok (fields.any (fun kv => kv.1 == s))
  | .arr xs => .ok (xs.any (fun e => jvalEqStr e s))
  | .str t => .ok (charsContain s.toList t.toList)
  | _ => .error .typeError

/-- Python iteration `for x in v`: lists yield elements, dicts yield their
keys, strings yield one-character strings, the rest raise `TypeError`. -/
def pyIterList : JVal → Except PyErr (List JVal)
  | .arr xs => .ok xs
  | .obj fields => .ok (fields.map (fun kv => .str kv.1))
  | .str s => .ok (s.toList.map (fun c => .str (String.singleton c)))
  | _ => .error .typeError

/-- A Python list comprehension `[acc(x) for x in xs]`: the accessor runs
element by element and the first exception aborts the whole comprehension. -/
def mapAccess (acc : JVal → Except PyErr JVal) : List JVal → Except PyErr (List JVal)
  | [] => .ok []
  | x :: xs =>
    match acc x with
    | .error e => .error e
    | .ok v =>
      match mapAccess acc xs with
      | .error e => .error e
      | .ok vs => .ok (v :: vs)

/-- Elements of a Python `str.join` argument must all be strings, otherwise
`TypeError`. -/
def strList : List JVal → Except PyErr (List String)
  | [] => .ok []
  | .str s :: xs =>
    match strList xs with
    | .error e => .error e
    | .ok ss => .ok (s :: ss)
  | _ :: _ => .error .typeError

/-- Python `sep.join(xs)`. -/
def pyJoin (sep : String) (xs : List JVal) : Except PyErr String :=
  match strList xs with
  | .error e => .error e
  | .ok ss => .ok (String.intercalate sep ss)

mutual
/-- Python `repr` of a JSON-derived value (used by `str` on containers). -/
def pyRepr (render : ℚ → String) : JVal → String
  | .null => "None"
  | .bool b => if b then "True" else "False"
  | .num q => render q
  | .str s => "\x27" ++ s ++ "\x27"
  | .arr xs => "[" ++ String.intercalate (", ") (pyReprList render xs) ++ "]"
  | .obj fields => "\x7b" ++ String.intercalate (", ") (pyReprFields render fields) ++ "\x7d"

def pyReprList (render : ℚ → String) : List JVal → List String
  | [] => []
  | x :: xs => pyRepr render x :: pyReprList render xs

def pyReprFields (render : ℚ → String) : List (String × JVal) → List String
  | [] => []
  | kv :: fields => ("\x27" ++ kv.1 ++ "\x27: " ++ pyRepr render kv.2) :: pyReprFields render fields
end

/-- Python `str.lower()` on ASCII metadata (`Char.toLower` lowers exactly
the ASCII uppercase letters). -/
def pyLower (s : String) : String := String.mk (s.toList.map Char.toLower)

/-- Python `str(v)` as used when a value is interpolated into an f-string;
number rendering is delegated to the oracle's `render`. -/
def pyFStr (render : ℚ → String) : JVal → String
  | .str s => s
  | v => pyRepr render v

/-- Result of `_get_metric_value`: a caught `CloudError` exits UNKNOWN, an
uncaught Python exception is a fault, otherwise the method returns a value
(`JVal.null` models Python `None`, both the explicit `return None` and
falling off the end of the scan loop). -/
inductive GMV where
  | cloudErr (msg : String)
  | fault (e : PyErr)
  | val (v : JVal)

/-- The scan loop of `_get_metric_value` (lines 209-211): iterate over the
reversed data list and return the first point's value under the aggregation
key, skipping points that lack the key. -/
def scanPoints (agg : String) : List JVal → GMV
  | [] => .val .null
  | p :: rest =>
    match pyContains p agg with
    | .error e => .fault e
    | .ok b =>
      if b then
        match p.getKey agg with
        | .ok v => .val v
        | .error e => .fault e
      else scanPoints agg rest

/-- `_get_metric_value` (lines 183-211), given the metric properties dict and
the metrics-endpoint response (`Except.error` models a `CloudError` raised by
`_call_arm_rest_api`).  Only `CloudError` is caught; the subscripting of the
response body can raise uncaught exceptions. -/
def pyGetMetricValue (props : JVal) (resp : Except String JVal) : GMV :=
  match resp with
  | .error m => .cloudErr m
  | .ok body =>
    match body.getKey ("value") with
    | .error e => .fault e
    | .ok v1 =>
    match v1.getIdx 0 with
    | .error e => .fault e
    | .ok v2 =>
    match v2.getKey ("timeseries") with
    | .error e => .fault e
    | .ok ts =>
    if ts.falsy then .val .null
    else
      match props.getKey ("primaryAggregationType") with
      | .error e => .fault e
      | .ok aggJ =>
      match aggJ with
      | .str aggS =>
        match ts.getIdx 0 with
        | .error e => .fault e
        | .ok first =>
        match first.getKey ("data") with
        | .error e => .fault e
        | .ok dataJ =>
        match dataJ with
        | .arr pts => scanPoints (pyLower aggS) pts.reverse
        | _ => .fault .typeError
      | _ => .fault .attributeError

/-- A time series point as a finite map from aggregation keys to values;
`none` models a JSON `null` value under a present key. -/
abbrev PointT := List (String × Option ℚ)

def optQ : Option ℚ → JVal
  | some q => .num q
  | none => .null

def encodePoint (p : PointT) : JVal :=
  .obj (p.map (fun kv => (kv.1, optQ kv.2)))

def encodeSeriesEntry (d : List PointT) : JVal :=
  .obj [("data", .arr (d.map encodePoint))]

/-- A well-shaped metrics-endpoint response
`{value: [{timeseries: [{data: [...]} ...]}]}`. -/
def encodeMetricsResp (series : List (List PointT)) : JVal :=
  .obj [("value", .arr [.obj [("timeseries", .arr (series.map encodeSeriesEntry))]])]

/-- The fields of one metric definition that the plugin reads. -/
structure MetricDef where
  nameId : String
  localized : String
  unit : String
  aggType : String
  isDimRequired : Bool
  dims : List String
deriving DecidableEq

def encodeDef (m : MetricDef) : JVal :=
  .obj [("name", .obj [("value", .str m.nameId), ("localizedValue", .str m.localized)]),
        ("unit", .str m.unit),
        ("primaryAggregationType", .str m.aggType),
        ("isDimensionRequired", .bool m.isDimRequired),
        ("dimensions", .arr (m.dims.map (fun d => .obj [("value", .str d)])))]

/-- A well-shaped metric-definitions response `{value: [...]}`. -/
def encodeDefsResp (c : List MetricDef) : JVal :=
  .obj [("value", .arr (c.map encodeDef))]

/-- Lookup of an aggregation key in a point: `none` when the key is absent,
`some none` when present with a `null` value. -/
def lookupPoint (p : PointT) (k : String) : Option (Option ℚ) :=
  (p.find? (fun kv => kv.1 == k)).map (fun kv => kv.2)

def jvalOfOpt : Option (Option ℚ) → JVal
  | some o => optQ o
  | none => .null

/-- The first point (in the given order) whose mapping contains the key. -/
def firstWithKey (k : String) (ps : List PointT) : Option PointT :=
  ps.find? (fun p => (lookupPoint p k).isSome)

/-- Nagios status codes used by `pynag.Plugins`. -/
def OK : Nat := 0
def WARNING : Nat := 1
def CRITICAL : Nat := 2
def UNKNOWN : Nat := 3

def digitVal (c : Char) : Nat := c.toNat - 48

def natOfDigits (cs : List Char) : Nat :=
  cs.foldl (fun a c => a * 10 + digitVal c) 0

def allDigits (cs : List Char) : Bool :=
  cs.all (fun c => c.isDigit)

/-- Parse an unsigned decimal numeral, with an optional fractional part. -/
def parseDecU (cs : List Char) : Option ℚ :=
  let ip := cs.takeWhile (fun c => c != '.')
  let rest := cs.dropWhile (fun c => c != '.')
  match rest with
  | [] => if ip ≠ [] ∧ allDigits ip then some ((natOfDigits ip : ℚ)) else none
  | _ :: fp =>
    if (ip ≠ [] ∨ fp ≠ []) ∧ allDigits ip ∧ allDigits fp then
      some ((natOfDigits ip : ℚ) + (natOfDigits fp : ℚ) / ((10 : ℚ) ^ fp.length))
    else none

/-- Parse a signed decimal numeral. -/
def parseDec (cs : List Char) : Option ℚ :=
  match cs with
  | '-' :: rest => (parseDecU rest).map (fun q => -q)
  | _ => parseDecU cs

/-- A parsed Nagios threshold range: the non-alerting interval
`[lo, hi]` (`none` bound = unbounded), alerting outside it, or inside it
when `invert` is set. -/
structure TRange where
  invert : Bool
  lo : Option ℚ
  hi : Option ℚ
deriving DecidableEq

/-- Split a character list at the first `:`. -/
def breakColon : List Char → (List Char × List Char)
  | [] => ([], [])
  | c :: cs =>
    if c = ':' then ([], cs)
    else
      let r := breakColon cs
      (c :: r.1, r.2)

/-- Modelled from the spec: body of the range parser, after the optional
leading `@` has been stripped. -/
def parseRangeChars (cs : List Char) (inv : Bool) : Option TRange :=
  if cs.contains ':' then
    let parts := breakColon cs
    let lo : Option (Option ℚ) :=
      if parts.1 = ['~'] then some none
      else if parts.1 = [] then some (some 0)
      else (parseDec parts.1).map some
    let hi : Option (Option ℚ) :=
      if parts.2 = [] then some none
      else (parseDec parts.2).map some
    match lo, hi with
    | some l, some h => some ⟨inv, l, h⟩
    | _, _ => none
  else
    (parseDec cs).map (fun n => ⟨inv, some 0, some n⟩)

/-- Modelled from the spec: the Nagios threshold-range syntax implemented by
the third-party `pynag.Plugins.check_threshold` collaborator (not part of
this repository's sources).  Per §4.5: a bare number `n` means the range
`[0, n]`; `lo:hi` with `hi` omitted means `[lo, ∞)` and `lo` written `~`
means `(-∞, hi]`; a leading `@` inverts the alerting side. -/
def parseRangeSpec (s : String) : Option TRange :=
  match s.toList with
  | '@' :: rest => parseRangeChars rest true
  | cs => parseRangeChars cs false

/-- Modelled from the spec: whether a parsed range alerts on a value. -/
def rangeFires (r : TRange) (v : ℚ) : Bool :=
  let inside :=
    (match r.lo with
     | none => true
     | some lo => decide (lo ≤ v)) &&
    (match r.hi with
     | none => true
     | some hi => decide (v ≤ hi))
  if r.invert then inside else !inside

/-- Modelled from the spec: whether a threshold spec string alerts on a
value (an unparsable spec never fires). -/
def specFires (s : String) (v : ℚ) : Bool :=
  match parseRangeSpec s with
  | some r => rangeFires r v
  | none => false

/-- Modelled from the spec: an absent spec never fires. -/
def optFires (o : Option String) (v : ℚ) : Bool :=
  match o with
  | some s => specFires s v
  | none => false

/-- Modelled from the spec: `pynag.Plugins.check_threshold` — critical is
checked before warning; CRITICAL if the critical spec fires, else WARNING if
the warning spec fires, else OK. -/
def checkThreshold (v : ℚ) (warning critical : Option String) : Nat :=
  if optFires critical v then CRITICAL
  else if optFires warning v then WARNING
  else OK

/-- The CLI options consumed by the plugin (`self[...]` accesses). -/
structure Config where
  resource : String
  metric : String
  dimension : Option String
  dimensionValue : Option String
  warning : Option String
  critical : Option String
  host : Option String
  timeout : Option String

/-- Network requests issued by the plugin, in order: the AAD token request
made by `ServicePrincipalCredentials`, the metric-definitions read, and the
metrics read carrying its optional `$filter` expression. -/
inductive NetCall where
  | auth
  | defs
  | metrics (filter : Option String)
deriving DecidableEq

/-- Outcomes of the external collaborators, fixed per run: resource-id
syntax check, the Python `float` builtin, and the three remote calls
(`Except.error` carries the `ClientException`/`CloudError` message).
`render` is Python's number-to-string conversion used by f-strings. -/
structure Oracle where
  resourceValid : Bool
  pyFloat : String → Option ℚ
  auth : Except String Unit
  defsResp : Except String JVal
  metricsResp : Except String JVal
  render : ℚ → String

/-- The performance-data record handed to `add_perfdata`. -/
structure Perf where
  label : JVal
  value : ℚ
  uom : Option String
  warn : Option String
  crit : Option String

/-- Terminal outcome of a plugin run: a `parser.error` usage exit, a
`nagios_exit` with status/message/perfdata, or an uncaught Python
exception. -/
inductive Outcome where
  | usageError (msg : String)
  | exited (status : Nat) (msg : String) (perf : Option Perf)
  | fault (e : PyErr)

/-- Python truthiness of an optional CLI string (`bool(self[...])`). -/
def optTruthy : Option String → Bool
  | none => false
  | some s => !(s == "")

/-- Python f-string rendering of an optional CLI string (`None` renders as
the text `None`). -/
def pyOptStr : Option String → String
  | some s => s
  | none => "None"

/-- Azure unit → perfdata unit-of-measure symbol
(`_AZURE_METRICS_UNIT_SYMBOLS`, line 75). -/
def AZURE_METRICS_UNIT_SYMBOLS : List (String × String) :=
  [("Percent", "%"), ("Bytes", "B"), ("Seconds", "s")]

/-- Python `_AZURE_METRICS_UNIT_SYMBOLS.get(u)`: `None` for a missing or
non-string (hashable) key, `TypeError` for an unhashable key. -/
def unitSymbolGet (u : JVal) : Except PyErr (Option String) :=
  match u with
  | .str s => .ok ((AZURE_METRICS_UNIT_SYMBOLS.find? (fun kv => kv.1 == s)).map (fun kv => kv.2))
  | .arr _ => .error .typeError
  | .obj _ => .error .typeError
  | _ => .ok none

/-- `metric['name']['value']` as read in `activate` and `check_metric`. -/
def nameValue (m : JVal) : Except PyErr JVal :=
  match m.getKey ("name") with
  | .error e => .error e
  | .ok n => n.getKey ("value")

/-- `metric['name']['localizedValue']` as read in `check_metric`. -/
def locValue (m : JVal) : Except PyErr JVal :=
  match m.getKey ("name") with
  | .error e => .error e
  | .ok n => n.getKey ("localizedValue")

/-- Result of `activate`: either the process already terminated, or the
plugin proceeds to `check_metric` with the resolved metric properties. -/
inductive ActResult where
  | stop (o : Outcome)
  | go (props : JVal)

/-- The pre-network checks of `activate` (lines 100-117): resource-id
syntax, the dimension/dimension-value truthiness match, and timeout
validation. -/
def preChecks (cfg : Config) (orc : Oracle) : Option Outcome :=
  if orc.resourceValid = false then some (.usageError ("invalid resource ID"))
  else if optTruthy cfg.dimension != optTruthy cfg.dimensionValue then
    some (.usageError ("--dimension and --dimension-value must be used together"))
  else
    match cfg.timeout with
    | none => none
    | some t =>
      match orc.pyFloat t with
      | none => some (.usageError ("Invalid timeout"))
      | some q => if q < 0 then some (.usageError ("Invalid timeout")) else none

/-- The dimension checks of `activate` (lines 144-154), given the resolved
metric properties.  `props.get('dimensions', [])` requires a dict
(`AttributeError` otherwise); `isDimensionRequired` is read before the
`and` short-circuits. -/
def dimChecks (cfg : Config) (props : JVal) : ActResult :=
  match props with
  | .obj fields =>
    let dimsJ := match fields.find? (fun kv => kv.1 == "dimensions") with
      | some kv => kv.2
      | none => .arr []
    match pyIterList dimsJ with
    | .error e => .stop (.fault e)
    | .ok dimObjs =>
    match mapAccess (fun d => d.getKey ("value")) dimObjs with
    | .error e => .stop (.fault e)
    | .ok dimIds =>
    match JVal.getKey (.obj fields) ("isDimensionRequired") with
    | .error e => .stop (.fault e)
    | .ok reqJ =>
    if (!reqJ.falsy) && cfg.dimension.isNone then
      match pyJoin (", ") dimIds with
      | .error e => .stop (.fault e)
      | .ok joined =>
        .stop (.usageError ("Dimension required for metric " ++ cfg.metric ++
          ". Supported dimensions are: " ++ joined))
    else
      match cfg.dimension with
      | none => .go (.obj fields)
      | some d =>
        if (dimIds.any (fun j => jvalEqStr j d)) = false then
          match pyJoin (", ") dimIds with
          | .error e => .stop (.fault e)
          | .ok joined =>
            .stop (.usageError ("Unknown dimension " ++ d ++ " for metric " ++ cfg.metric ++
              ". Supported dimensions are: " ++ joined))
        else .go (.obj fields)
  | _ => .stop (.fault .attributeError)

/-- `activate` after a successful metric-definitions fetch (lines 136-154):
`metrics['value']` subscripting, the unknown-metric check over the catalog
ids in server order, resolution of the metric properties, and the dimension
checks. -/
def afterDefs (cfg : Config) (body : JVal) : ActResult :=
  match body.getKey ("value") with
  | .error e => .stop (.fault e)
  | .ok defsJ =>
  match pyIterList defsJ with
  | .error e => .stop (.fault e)
  | .ok defsList =>
  match mapAccess nameValue defsList with
  | .error e => .stop (.fault e)
  | .ok ids =>
  if (ids.any (fun j => jvalEqStr j cfg.metric)) = false then
    match pyJoin (", ") ids with
    | .error e => .stop (.fault e)
    | .ok joined =>
      .stop (.usageError ("Unknown metric " ++ cfg.metric ++
        " for specified resource. Supported metrics are: " ++ joined))
  else
    let props := match (defsList.zip ids).find? (fun mi => jvalEqStr mi.2 cfg.metric) with
      | some mi => mi.1
      | none => JVal.null
    dimChecks cfg props

/-- `activate` (lines 96-154) together with the network calls it issues. -/
def activate (cfg : Config) (orc : Oracle) : ActResult × List NetCall :=
  match preChecks cfg orc with
  | some o => (.stop o, [])
  | none =>
    match orc.auth with
    | .error m => (.stop (.exited UNKNOWN m none), [.auth])
    | .ok _ =>
      match orc.defsResp with
      | .error m => (.stop (.exited UNKNOWN m none), [.auth, .defs])
      | .ok body => (afterDefs cfg body, [.auth, .defs])

/-- The tail of `check_metric` (lines 225-240) once a numeric value `q` is
in hand; `vs` is the f-string rendering of the raw value. -/
def checkMetricValue (cfg : Config) (orc : Oracle) (props : JVal) (q : ℚ) (vs : String) :
    Outcome :=
  let status := checkThreshold q cfg.warning cfg.critical
  match props.getKey ("unit") with
  | .error e => .fault e
  | .ok uj =>
  match unitSymbolGet uj with
  | .error e => .fault e
  | .ok uom =>
  match nameValue props with
  | .error e => .fault e
  | .ok label =>
  match locValue props with
  | .error e => .fault e
  | .ok locJ =>
  match uj with
  | .str us =>
    .exited status
      (pyFStr orc.render locJ ++ (" ") ++ vs ++ (" ") ++ pyLower us)
      (some ⟨label, q, uom, cfg.warning, cfg.critical⟩)
  | _ => .fault .attributeError

/-- `check_metric` (lines 213-240): issues the metrics read (with the
`$filter` expression exactly when a dimension is set), then maps the fetched
value to a terminal outcome.  A non-numeric, non-null value would reach the
threshold comparison and raise `TypeError` there. -/
def checkMetric (cfg : Config) (orc : Oracle) (props : JVal) : Outcome × List NetCall :=
  let filter : Option String :=
    match cfg.dimension with
    | some d => some (d ++ (" eq \x27") ++ pyOptStr cfg.dimensionValue ++ ("\x27"))
    | none => none
  let calls : List NetCall := [.metrics filter]
  match pyGetMetricValue props orc.metricsResp with
  | .cloudErr m => (.exited UNKNOWN m none, calls)
  | .fault e => (.fault e, calls)
  | .val v =>
    match v with
    | .null =>
      let msg := "No value available for metric " ++ cfg.metric ++
        (match cfg.dimension with
         | some d => " and dimension " ++ d
         | none => "")
      (.exited UNKNOWN msg none, calls)
    | .num q => (checkMetricValue cfg orc props q (orc.render q), calls)
    | .bool b =>
      (checkMetricValue cfg orc props (if b then 1 else 0)
        (if b then ("True") else ("False")), calls)
    | _ => (.fault .typeError, calls)

/-- The whole plugin run (`__main__`): `activate` then, if it returned,
`check_metric`. -/
def run (cfg : Config) (orc : Oracle) : Outcome × List NetCall :=
  match activate cfg orc with
  | (.stop o, calls) => (o, calls)
  | (.go props, calls) =>
    let r := checkMetric cfg orc props
    (r.1, calls ++ r.2)

/-- A dimensionless CPU-percentage metric definition (spec §8, Scenario A). -/
def sampleDef : MetricDef :=
  ⟨"Percentage CPU", "CPU Percentage", "Percent", "Average", false, []⟩

/-- A dimension-requiring metric definition. -/
def sampleDimDef : MetricDef :=
  ⟨"Transactions", "Transactions", "Count", "Total", true, ["ApiName", "GeoType"]⟩

/-- A well-formed invocation requesting the CPU metric with critical
threshold `70`. -/
def baseCfg : Config :=
  ⟨"/subscriptions/s/resourceGroups/g/providers/Microsoft.Compute/virtualMachines/vm",
   "Percentage CPU", none, none, none, some ("70"), none, none⟩

/-- Remote responses for spec §8 Scenario C: the newest point lacks the
`average` key, an older point has `average = 72`. -/
def baseOrc : Oracle :=
  ⟨true, fun _ => none, .ok (), .ok (encodeDefsResp [sampleDef]),
   .ok (encodeMetricsResp [[[("average", some 72)], [("total", some 1)]]]),
   fun _ => ("72")⟩

/-- A metrics-endpoint body whose outer `value` list is empty. -/
def emptyValueResp : JVal := .obj [("value", .arr [])]

def orcEmptyValue : Oracle := { baseOrc with metricsResp := .ok emptyValueResp }

/-- An invocation supplying both a dimension name and value. -/
def cfgDim : Config :=
  { baseCfg with dimension := some ("ApiName"), dimensionValue := some ("GetBlob") }

/-- A series in which no point carries the `average` key. -/
def orcNoKey : Oracle :=
  { baseOrc with metricsResp := .ok (encodeMetricsResp [[[("total", some 1)]]]) }

/-- A series whose most recent `average`-bearing point maps it to `null`,
with an older point holding `average = 72`. -/
def orcNullNewest : Oracle :=
  { baseOrc with metricsResp := .ok (encodeMetricsResp
      [[[("average", some 72)], [("average", none)], [("total", some 1)]]]) }

section ListLemmas

variable {α β : Type}

lemma any_eq_find_isSome (p : α → Bool) (l : List α) :
    l.any p = (l.find? p).isSome := by
  induction l with
  | nil => rfl
  | cons a l ih =>
    cases h : p a with
    | true => simp [List.any_cons, h, List.find?, ih]
    | false => simp [List.any_cons, h, List.find?, ih]

lemma find_map_comm (f : α → β) (p : β → Bool) (l : List α) :
    (l.map f).find? p = (l.find? (fun a => p (f a))).map f := by
  induction l with
  | nil => rfl
  | cons a l ih =>
    cases h : p (f a) with
    | true => simp [List.find?, h, ih]
    | false => simp [List.find?, h, ih]

lemma find_append_of_none (p : α → Bool) (l₁ l₂ : List α) (h : l₁.find? p = none) :
    (l₁ ++ l₂).find? p = l₂.find? p := by
  induction l₁ with
  | nil => rfl
  | cons a l ih =>
    cases ha : p a with
    | true =>
      rw [List.find?_cons, ha] at h
      exact absurd h (by simp)
    | false =>
      rw [List.find?_cons, ha] at h
      rw [List.cons_append, List.find?_cons, ha]
      exact ih h

end ListLemmas

lemma map_enc_any (p : PointT) (k : String) :
    (p.map (fun kv => (kv.1, optQ kv.2))).any (fun kv => kv.1 == k) =
      (p.find? (fun kv => kv.1 == k)).isSome := by
  induction p with
  | nil => rfl
  | cons kv p ih =>
    cases h : kv.1 == k with
    | true => simp [List.find?_cons, h]
    | false => simp [List.find?_cons, h, ih]

lemma map_enc_find (p : PointT) (k : String) :
    (p.map (fun kv => (kv.1, optQ kv.2))).find? (fun kv => kv.1 == k) =
      (p.find? (fun kv => kv.1 == k)).map (fun kv => (kv.1, optQ kv.2)) := by
  induction p with
  | nil => rfl
  | cons kv p ih =>
    cases h : kv.1 == k with
    | true => simp [List.find?_cons, h]
    | false => simp [List.find?_cons, h, ih]

lemma encodePoint_contains (p : PointT) (k : String) :
    pyContains (encodePoint p) k = .ok ((p.find? (fun kv => kv.1 == k)).isSome) := by
  show Except.ok ((p.map (fun kv => (kv.1, optQ kv.2))).any (fun kv => kv.1 == k)) = _
  rw [map_enc_any]

lemma encodePoint_getKey (p : PointT) (k : String) :
    (encodePoint p).getKey k =
      (match p.find? (fun kv => kv.1 == k) with
       | some kv => Except.ok (optQ kv.2)
       | none => Except.error (PyErr.keyError k)) := by
  show (match (p.map (fun kv => (kv.1, optQ kv.2))).find? (fun kv => kv.1 == k) with
        | some kv => Except.ok kv.2
        | none => Except.error (PyErr.keyError k)) = _
  rw [map_enc_find]
  cases p.find? (fun kv => kv.1 == k) <;> rfl

lemma scanPoints_encode (agg : String) (ps : List PointT) :
    scanPoints agg (ps.map encodePoint) =
      .val (match firstWithKey agg ps with
            | some p => jvalOfOpt (lookupPoint p agg)
            | none => .null) := by
  induction ps with
  | nil => rfl
  | cons p ps ih =>
    cases hf : p.find? (fun kv => kv.1 == agg) with
    | none =>
      have hl : lookupPoint p agg = none := by simp [lookupPoint, hf]
      have hfirst : firstWithKey agg (p :: ps) = firstWithKey agg ps := by
        unfold firstWithKey
        rw [List.find?_cons]
        simp [hl]
      rw [List.map_cons]
      show (match pyContains (encodePoint p) agg with
            | .error e => GMV.fault e
            | .ok b =>
              if b then
                match (encodePoint p).getKey agg with
                | .ok v => GMV.val v
                | .error e => GMV.fault e
              else scanPoints agg (ps.map encodePoint)) = _
      rw [encodePoint_contains, hf, hfirst]
      exact ih
    | some kv =>
      have hl : lookupPoint p agg = some kv.2 := by simp [lookupPoint, hf]
      have hfirst : firstWithKey agg (p :: ps) = some p := by
        unfold firstWithKey
        rw [List.find?_cons]
        simp [hl]
      rw [List.map_cons]
      show (match pyContains (encodePoint p) agg with
            | .error e => GMV.fault e
            | .ok b =>
              if b then
                match (encodePoint p).getKey agg with
                | .ok v => GMV.val v
                | .error e => GMV.fault e
              else scanPoints agg (ps.map encodePoint)) = _
      rw [encodePoint_contains, encodePoint_getKey, hf, hfirst]
      show GMV.val (optQ kv.2) = GMV.val (jvalOfOpt (lookupPoint p agg))
      rw [hl]
      rfl

lemma reverse_map_comm {α β : Type} (f : α → β) (l : List α) :
    (l.map f).reverse = l.reverse.map f :=
  (List.map_reverse f l).symm

/-- On a well-shaped metrics response with a non-empty time-series list,
`_get_metric_value` reduces to the backward scan of the first sub-series
under the lowercased primary aggregation type. -/
lemma gmv_encode (m : MetricDef) (d : List PointT) (rest : List (List PointT)) :
    pyGetMetricValue (encodeDef m) (.ok (encodeMetricsResp (d :: rest))) =
      .val (match firstWithKey (pyLower m.aggType) d.reverse with
            | some p => jvalOfOpt (lookupPoint p (pyLower m.aggType))
            | none => .null) := by
  have h1 : pyGetMetricValue (encodeDef m) (.ok (encodeMetricsResp (d :: rest))) =
      scanPoints (pyLower m.aggType) ((d.map encodePoint).reverse) := rfl
  rw [h1, reverse_map_comm, scanPoints_encode]

lemma mapAccess_nameValue (c : List MetricDef) :
    mapAccess nameValue (c.map encodeDef) = .ok (c.map (fun m => JVal.str m.nameId)) := by
  induction c with
  | nil => rfl
  | cons m c ih =>
    simp only [List.map_cons, mapAccess]
    rw [show nameValue (encodeDef m) = Except.ok (JVal.str m.nameId) from rfl, ih]

lemma any_ids (c : List MetricDef) (s : String) :
    (c.map (fun m => JVal.str m.nameId)).any (fun j => jvalEqStr j s) =
      c.any (fun m => m.nameId == s) := by
  induction c with
  | nil => rfl
  | cons m c ih =>
    simp only [List.map_cons, List.any_cons, ih]
    rw [show jvalEqStr (JVal.str m.nameId) s = (m.nameId == s) from rfl]

lemma strList_map_str (ss : List String) : strList (ss.map JVal.str) = .ok ss := by
  induction ss with
  | nil => rfl
  | cons s ss ih => simp [List.map_cons, strList, ih]

lemma pyJoin_map_str (sep : String) (ss : List String) :
    pyJoin sep (ss.map JVal.str) = .ok (String.intercalate sep ss) := by
  simp [pyJoin, strList_map_str]

lemma zip_find_enc (c : List MetricDef) (s : String) (mdf : MetricDef)
    (h : c.find? (fun m => m.nameId == s) = some mdf) :
    ((c.map encodeDef).zip (c.map (fun m => JVal.str m.nameId))).find?
        (fun mi => jvalEqStr mi.2 s) = some (encodeDef mdf, JVal.str mdf.nameId) := by
  induction c with
  | nil => simp [List.find?] at h
  | cons m c ih =>
    cases hm : m.nameId == s with
    | true =>
      simp only [List.find?_cons, hm] at h
      simp only [Option.some.injEq] at h
      subst h
      simp [List.zip_cons_cons, List.find?_cons, jvalEqStr, hm]
    | false =>
      simp only [List.find?_cons, hm] at h
      simp only [List.map_cons, List.zip_cons_cons, List.find?_cons, jvalEqStr, hm]
      exact ih h

lemma mapAccess_dims (ds : List String) :
    mapAccess (fun d => d.getKey ("value"))
        (ds.map (fun d => JVal.obj [("value", JVal.str d)])) =
      .ok (ds.map JVal.str) := by
  induction ds with
  | nil => rfl
  | cons d ds ih =>
    simp only [List.map_cons, mapAccess]
    rw [show (JVal.obj [("value", JVal.str d)]).getKey ("value") =
          Except.ok (JVal.str d) from rfl, ih]

lemma dimChecks_enc_required (cfg : Config) (mdf : MetricDef)
    (hreq : mdf.isDimRequired = true) (hdim : cfg.dimension = none) :
    dimChecks cfg (encodeDef mdf) =
      .stop (.usageError ("Dimension required for metric " ++ cfg.metric ++
        ". Supported dimensions are: " ++ String.intercalate (", ") mdf.dims)) := by
  simp only [dimChecks, encodeDef, pyIterList]
  simp only [List.find?_cons]
  simp [mapAccess_dims, hreq, hdim, JVal.falsy, pyJoin_map_str, ← List.map_map]
  rfl

lemma map_str_ids (c : List MetricDef) :
    c.map (fun m => JVal.str m.nameId) = (c.map (fun m => m.nameId)).map JVal.str := by
  rw [List.map_map]
  rfl

lemma pyJoin_ids (sep : String) (c : List MetricDef) :
    pyJoin sep (c.map (fun m => JVal.str m.nameId)) =
      .ok (String.intercalate sep (c.map (fun m => m.nameId))) := by
  rw [map_str_ids, pyJoin_map_str]

lemma afterDefs_unknown (cfg : Config) (c : List MetricDef)
    (h : c.any (fun m => m.nameId == cfg.metric) = false) :
    afterDefs cfg (encodeDefsResp c) =
      .stop (.usageError ("Unknown metric " ++ cfg.metric ++
        " for specified resource. Supported metrics are: " ++
        String.intercalate (", ") (c.map (fun m => m.nameId)))) := by
  simp only [afterDefs,
    show (encodeDefsResp c).getKey ("value") = Except.ok (JVal.arr (c.map encodeDef)) from rfl,
    pyIterList, mapAccess_nameValue, any_ids, h]
  simp [pyJoin_ids]

lemma afterDefs_found (cfg : Config) (c : List MetricDef) (mdf : MetricDef)
    (hfind : c.find? (fun m => m.nameId == cfg.metric) = some mdf) :
    afterDefs cfg (encodeDefsResp c) = dimChecks cfg (encodeDef mdf) := by
  have hany : c.any (fun m => m.nameId == cfg.metric) = true := by
    rw [any_eq_find_isSome, hfind]
    rfl
  simp only [afterDefs,
    show (encodeDefsResp c).getKey ("value") = Except.ok (JVal.arr (c.map encodeDef)) from rfl,
    pyIterList, mapAccess_nameValue, any_ids, hany, zip_find_enc c cfg.metric mdf hfind]
  simp

lemma preChecks_none (cfg : Config) (orc : Oracle)
    (hv : orc.resourceValid = true)
    (hx : optTruthy cfg.dimension = optTruthy cfg.dimensionValue)
    (ht : cfg.timeout = none) :
    preChecks cfg orc = none := by
  simp [preChecks, hv, hx, ht]

lemma activate_go (cfg : Config) (orc : Oracle) (body : JVal)
    (hpre : preChecks cfg orc = none) (hauth : orc.auth = .ok ())
    (hdefs : orc.defsResp = .ok body) :
    activate cfg orc = (afterDefs cfg body, [.auth, .defs]) := by
  simp [activate, hpre, hauth, hdefs]

lemma checkMetricValue_enc (cfg : Config) (orc : Oracle) (m : MetricDef) (q : ℚ) (vs : String) :
    checkMetricValue cfg orc (encodeDef m) q vs =
      .exited (checkThreshold q cfg.warning cfg.critical)
        (m.localized ++ (" ") ++ vs ++ (" ") ++ pyLower m.unit)
        (some ⟨.str m.nameId, q,
          (AZURE_METRICS_UNIT_SYMBOLS.find? (fun kv => kv.1 == m.unit)).map (fun kv => kv.2),
          cfg.warning, cfg.critical⟩) := rfl

lemma checkMetric_null (cfg : Config) (orc : Oracle) (props : JVal)
    (h : pyGetMetricValue props orc.metricsResp = .val .null) :
    checkMetric cfg orc props =
      (.exited UNKNOWN ("No value available for metric " ++ cfg.metric ++
        (match cfg.dimension with
         | some d => " and dimension " ++ d
         | none => "")) none,
       [.metrics (match cfg.dimension with
         | some d => some (d ++ (" eq \x27") ++ pyOptStr cfg.dimensionValue ++ ("\x27"))
         | none => none)]) := by
  simp [checkMetric, h]

lemma checkMetric_num (cfg : Config) (orc : Oracle) (props : JVal) (q : ℚ)
    (h : pyGetMetricValue props orc.metricsResp = .val (.num q)) :
    checkMetric cfg orc props =
      (checkMetricValue cfg orc props q (orc.render q),
       [.metrics (match cfg.dimension with
         | some d => some (d ++ (" eq \x27") ++ pyOptStr cfg.dimensionValue ++ ("\x27"))
         | none => none)]) := by
  simp [checkMetric, h]

lemma checkMetric_calls (cfg : Config) (orc : Oracle) (props : JVal) :
    (checkMetric cfg orc props).2 =
      [.metrics (match cfg.dimension with
        | some d => some (d ++ (" eq \x27") ++ pyOptStr cfg.dimensionValue ++ ("\x27"))
        | none => none)] := by
  cases h : pyGetMetricValue props orc.metricsResp with
  | cloudErr m => simp [checkMetric, h]
  | fault e => simp [checkMetric, h]
  | val v => cases v <;> simp [checkMetric, h]

/-- C1: on a metrics response whose first time series has data, the fetch
scans from the most recent point backward and returns the value of the first
point whose mapping contains the lowercased `primaryAggregationType` key,
skipping points that lack it; concretely (Scenario C), with a newest point
lacking `average` and an older point with `average = 72` under critical spec
`70`, the value is 72 and the run exits CRITICAL. -/
theorem spec_C1 :
    (∀ (m : MetricDef) (d : List PointT) (rest : List (List PointT)) (p : PointT),
        firstWithKey (pyLower m.aggType) d.reverse = some p →
        pyGetMetricValue (encodeDef m) (.ok (encodeMetricsResp (d :: rest))) =
          .val (jvalOfOpt (lookupPoint p (pyLower m.aggType)))) ∧
    pyGetMetricValue (encodeDef sampleDef) baseOrc.metricsResp = .val (.num 72) ∧
    run baseCfg baseOrc =
      (.exited CRITICAL ("CPU Percentage 72 percent")
        (some ⟨.str ("Percentage CPU"), 72, some ("%"), none, some ("70")⟩),
       [.auth, .defs, .metrics none]) := by
  refine ⟨?_, rfl, rfl⟩
  intro m d rest p hp
  rw [gmv_encode, hp]

theorem spec_C1_witness :
    pyGetMetricValue (encodeDef sampleDef)
        (.ok (encodeMetricsResp [[[("average", some 72)], [("total", some 1)]]])) =
      .val (jvalOfOpt (lookupPoint [("average", some 72)] ("average"))) :=
  spec_C1.1 sampleDef [[("average", some 72)], [("total", some 1)]] []
    [("average", some 72)] (by decide)

/-- C2: an empty time-series list, or a first sub-series none of whose
points carries the primary-aggregation key, yields `None` from the fetch,
and `check_metric` then exits UNKNOWN with a message naming the metric and,
when a dimension was supplied, the dimension. -/
theorem spec_C2 (cfg : Config) (orc : Oracle) (m : MetricDef) (series : List (List PointT))
    (hresp : orc.metricsResp = .ok (encodeMetricsResp series))
    (hnone : series = [] ∨ ∃ d rest, series = d :: rest ∧
      ∀ p ∈ d, lookupPoint p (pyLower m.aggType) = none) :
    pyGetMetricValue (encodeDef m) orc.metricsResp = .val .null ∧
    (checkMetric cfg orc (encodeDef m)).1 =
      .exited UNKNOWN ("No value available for metric " ++ cfg.metric ++
        (match cfg.dimension with
         | some d => " and dimension " ++ d
         | none => "")) none := by
  have hval : pyGetMetricValue (encodeDef m) orc.metricsResp = .val .null := by
    rw [hresp]
    rcases hnone with h | ⟨d, rest, hs, hall⟩
    · subst h
      rfl
    · subst hs
      rw [gmv_encode]
      have hfk : firstWithKey (pyLower m.aggType) d.reverse = none := by
        apply List.find?_eq_none.mpr
        intro p hp
        rw [hall p (List.mem_reverse.mp hp)]
        simp
      rw [hfk]
  refine ⟨hval, ?_⟩
  rw [checkMetric_null cfg orc _ hval]

theorem spec_C2_witness :
    pyGetMetricValue (encodeDef sampleDef) orcNoKey.metricsResp = .val .null ∧
    (checkMetric baseCfg orcNoKey (encodeDef sampleDef)).1 =
      .exited UNKNOWN ("No value available for metric " ++ baseCfg.metric ++
        (match baseCfg.dimension with
         | some d => " and dimension " ++ d
         | none => "")) none :=
  spec_C2 baseCfg orcNoKey sampleDef [[[("total", some 1)]]] rfl
    (Or.inr ⟨[[("total", some 1)]], [], rfl, by decide⟩)

/-- C3: the claim that every remote response terminates in one of the four
statuses fails on the code: a metrics response whose outer `value` list is
empty makes `metric_values['value'][0]` raise an uncaught `IndexError`
(only `CloudError` is caught), so the run ends in a fault, not a status. -/
theorem spec_C3 :
    pyGetMetricValue (encodeDef sampleDef) (.ok emptyValueResp) = .fault .indexError ∧
    run baseCfg orcEmptyValue = (.fault .indexError, [.auth, .defs, .metrics none]) :=
  ⟨rfl, rfl⟩

/-- C4: threshold semantics — range `10:20` is inclusive at both ends
(10 and 20 do not alert, 9.9 and 20.1 do), `@10:20` alerts exactly where
`10:20` does not, critical is checked before warning, and an absent spec
never fires. -/
theorem spec_C4 :
    (specFires ("10:20") 10 = false ∧ specFires ("10:20") 20 = false ∧
     specFires ("10:20") (99 / 10 : ℚ) = true ∧
     specFires ("10:20") (201 / 10 : ℚ) = true) ∧
    (∀ v : ℚ, specFires ("@10:20") v = !(specFires ("10:20") v)) ∧
    (∀ (v : ℚ) (w c : String),
        checkThreshold v (some w) (some c) =
          if specFires c v then CRITICAL else if specFires w v then WARNING else OK) ∧
    (∀ (v : ℚ) (c : String),
        checkThreshold v none (some c) = if specFires c v then CRITICAL else OK) ∧
    (∀ (v : ℚ) (w : String),
        checkThreshold v (some w) none = if specFires w v then WARNING else OK) ∧
    (∀ v : ℚ, checkThreshold v none none = OK) := by
  have hp : parseRangeSpec ("10:20") = some (TRange.mk false (some 10) (some 20)) := by
    decide
  have hfire : ∀ v : ℚ, specFires ("10:20") v =
      !(decide ((10 : ℚ) ≤ v) && decide (v ≤ (20 : ℚ))) := by
    intro v
    simp only [specFires, hp, rangeFires]
    rfl
  refine ⟨⟨?_, ?_, ?_, ?_⟩, ?_, ?_, ?_, ?_, ?_⟩
  · rw [hfire]
    norm_num
  · rw [hfire]
    norm_num
  · rw [hfire]
    rw [decide_eq_false (show ¬((10 : ℚ) ≤ 99 / 10) by norm_num)]
    rfl
  · rw [hfire]
    rw [decide_eq_true (show ((10 : ℚ) ≤ 201 / 10) by norm_num),
      decide_eq_false (show ¬((201 / 10 : ℚ) ≤ 20) by norm_num)]
    rfl
  · intro v
    simp only [specFires,
      (by decide : parseRangeSpec ("@10:20") = some (TRange.mk true (some 10) (some 20))), hp]
    simp [rangeFires]
  · intro v w c
    rfl
  · intro v c
    rfl
  · intro v w
    rfl
  · intro v
    rfl

/-- C5 counterexample: supplying `--dimension ""` and no dimension value is
supplying exactly one of the pair, yet the run does not fail with the
both-must-be-used-together usage error before any network call — the empty
string is falsy, the truthiness comparison passes, and the run performs the
auth and metric-definitions calls before failing with an unknown-dimension
usage error. -/
theorem spec_C5_counterexample :
    (Config.dimension { baseCfg with dimension := some ("") }).isSome = true ∧
    Config.dimensionValue { baseCfg with dimension := some ("") } = none ∧
    run { baseCfg with dimension := some ("") } baseOrc =
      (.usageError ("Unknown dimension  for metric Percentage CPU. Supported dimensions are: "),
       [.auth, .defs]) :=
  ⟨rfl, rfl, rfl⟩

/-- C5 (amended): when the resource id passes validation and exactly one of
dimension name/value is supplied with a Python-truthy (non-empty) string,
the run fails with the usage error stating both must be used together,
before any network call.  An empty-string argument is treated as absent by
this check. -/
theorem spec_C5 (cfg : Config) (orc : Oracle)
    (hv : orc.resourceValid = true)
    (hx : optTruthy cfg.dimension ≠ optTruthy cfg.dimensionValue) :
    run cfg orc =
      (.usageError ("--dimension and --dimension-value must be used together"), []) := by
  have hbne : (optTruthy cfg.dimension != optTruthy cfg.dimensionValue) = true :=
    bne_iff_ne.mpr hx
  simp [run, activate, preChecks, hv, hbne]

theorem spec_C5_witness :
    run { baseCfg with dimension := some ("ApiName") } baseOrc =
      (.usageError ("--dimension and --dimension-value must be used together"), []) :=
  spec_C5 { baseCfg with dimension := some ("ApiName") } baseOrc rfl (by decide)

/-- C6: when the resolved metric definition has `isDimensionRequired` true
and no dimension is supplied, the run fails with a usage error enumerating
the metric's available dimension ids, and the network trace contains no
request to the metrics endpoint. -/
theorem spec_C6 (cfg : Config) (orc : Oracle) (c : List MetricDef) (mdf : MetricDef)
    (hv : orc.resourceValid = true)
    (hd : cfg.dimension = none)
    (hdv : optTruthy cfg.dimensionValue = false)
    (ht : cfg.timeout = none)
    (hauth : orc.auth = .ok ())
    (hdefs : orc.defsResp = .ok (encodeDefsResp c))
    (hfind : c.find? (fun m => m.nameId == cfg.metric) = some mdf)
    (hreq : mdf.isDimRequired = true) :
    run cfg orc =
      (.usageError ("Dimension required for metric " ++ cfg.metric ++
        ". Supported dimensions are: " ++ String.intercalate (", ") mdf.dims),
       [.auth, .defs]) ∧
    ∀ f, NetCall.metrics f ∉ (run cfg orc).2 := by
  have hpre : preChecks cfg orc = none :=
    preChecks_none cfg orc hv (by rw [hd, hdv]; rfl) ht
  have hrun : run cfg orc =
      (.usageError ("Dimension required for metric " ++ cfg.metric ++
        ". Supported dimensions are: " ++ String.intercalate (", ") mdf.dims),
       [.auth, .defs]) := by
    rw [run, activate_go cfg orc _ hpre hauth hdefs, afterDefs_found cfg c mdf hfind,
      dimChecks_enc_required cfg mdf hreq hd]
  refine ⟨hrun, ?_⟩
  intro f
  rw [hrun]
  simp

theorem spec_C6_witness :
    run { baseCfg with metric := ("Transactions") }
        { baseOrc with defsResp := .ok (encodeDefsResp [sampleDimDef]) } =
      (.usageError ("Dimension required for metric " ++
        Config.metric { baseCfg with metric := ("Transactions") } ++
        ". Supported dimensions are: " ++ String.intercalate (", ") sampleDimDef.dims),
       [.auth, .defs]) :=
  (spec_C6 { baseCfg with metric := ("Transactions") }
    { baseOrc with defsResp := .ok (encodeDefsResp [sampleDimDef]) }
    [sampleDimDef] sampleDimDef rfl rfl rfl rfl rfl rfl (by decide) rfl).1

/-- C7: when the requested metric name is not among the catalog's metric
ids, the run fails with a usage error enumerating the full catalog's metric
names in server-returned order. -/
theorem spec_C7 (cfg : Config) (orc : Oracle) (c : List MetricDef)
    (hv : orc.resourceValid = true)
    (hx : optTruthy cfg.dimension = optTruthy cfg.dimensionValue)
    (ht : cfg.timeout = none)
    (hauth : orc.auth = .ok ())
    (hdefs : orc.defsResp = .ok (encodeDefsResp c))
    (hmiss : c.any (fun m => m.nameId == cfg.metric) = false) :
    run cfg orc =
      (.usageError ("Unknown metric " ++ cfg.metric ++
        " for specified resource. Supported metrics are: " ++
        String.intercalate (", ") (c.map (fun m => m.nameId))),
       [.auth, .defs]) := by
  have hpre : preChecks cfg orc = none := preChecks_none cfg orc hv hx ht
  rw [run, activate_go cfg orc _ hpre hauth hdefs, afterDefs_unknown cfg c hmiss]

theorem spec_C7_witness :
    run { baseCfg with metric := ("Nonexistent") } baseOrc =
      (.usageError ("Unknown metric " ++
        Config.metric { baseCfg with metric := ("Nonexistent") } ++
        " for specified resource. Supported metrics are: " ++
        String.intercalate (", ") ([sampleDef].map (fun m => m.nameId))),
       [.auth, .defs]) :=
  spec_C7 { baseCfg with metric := ("Nonexistent") } baseOrc [sampleDef]
    rfl rfl rfl rfl rfl (by decide)

/-- C8: the metrics request carries the filter expression
`"{dimension} eq '{dimension-value}'"` exactly when a dimension is set, and
no filter otherwise. -/
theorem spec_C8 (cfg : Config) (orc : Oracle) (props : JVal) :
    (∀ d v, cfg.dimension = some d → cfg.dimensionValue = some v →
      (checkMetric cfg orc props).2 =
        [.metrics (some (d ++ (" eq \x27") ++ v ++ ("\x27")))]) ∧
    (cfg.dimension = none → (checkMetric cfg orc props).2 = [.metrics none]) := by
  constructor
  · intro d v hd hv
    rw [checkMetric_calls, hd, hv]
    rfl
  · intro hd
    rw [checkMetric_calls, hd]

theorem spec_C8_witness :
    (checkMetric cfgDim baseOrc (encodeDef sampleDimDef)).2 =
      [.metrics (some (("ApiName") ++ (" eq \x27") ++ ("GetBlob") ++ ("\x27")))] :=
  (spec_C8 cfgDim baseOrc (encodeDef sampleDimDef)).1 ("ApiName") ("GetBlob") rfl rfl

/-- C9: with a fetched numeric value, the emitted message is the metric's
localized label, the rendered value, and the lowercased unit, separated by
single spaces; the perfdata record carries the metric's name id as label,
the value, the unit symbol from the fixed `_AZURE_METRICS_UNIT_SYMBOLS`
map, and the raw warning/critical spec strings. -/
theorem spec_C9 (cfg : Config) (orc : Oracle) (m : MetricDef) (q : ℚ) (r : JVal)
    (hresp : orc.metricsResp = .ok r)
    (hval : pyGetMetricValue (encodeDef m) (.ok r) = .val (.num q)) :
    (checkMetric cfg orc (encodeDef m)).1 =
      .exited (checkThreshold q cfg.warning cfg.critical)
        (m.localized ++ (" ") ++ orc.render q ++ (" ") ++ pyLower m.unit)
        (some ⟨.str m.nameId, q,
          (AZURE_METRICS_UNIT_SYMBOLS.find? (fun kv => kv.1 == m.unit)).map (fun kv => kv.2),
          cfg.warning, cfg.critical⟩) := by
  have h : pyGetMetricValue (encodeDef m) orc.metricsResp = .val (.num q) := by
    rw [hresp]
    exact hval
  rw [checkMetric_num cfg orc _ q h]
  exact checkMetricValue_enc cfg orc m q (orc.render q)

theorem spec_C9_witness :
    (checkMetric baseCfg baseOrc (encodeDef sampleDef)).1 =
      .exited (checkThreshold 72 baseCfg.warning baseCfg.critical)
        (sampleDef.localized ++ (" ") ++ baseOrc.render 72 ++ (" ") ++ pyLower sampleDef.unit)
        (some ⟨.str sampleDef.nameId, 72,
          (AZURE_METRICS_UNIT_SYMBOLS.find?
            (fun kv => kv.1 == sampleDef.unit)).map (fun kv => kv.2),
          baseCfg.warning, baseCfg.critical⟩) :=
  spec_C9 baseCfg baseOrc sampleDef 72
    (encodeMetricsResp [[[("average", some 72)], [("total", some 1)]]]) rfl rfl

/-- C10: when the most recent point containing the primary-aggregation key
maps it to `null`, the fetch returns `None` without consulting any older
point (the conclusion holds for every prefix of older points, including ones
holding non-null values), the check exits UNKNOWN with the no-value message,
and the outcome is identical to that of a response with no time series at
all. -/
theorem spec_C10 (cfg : Config) (orc : Oracle) (m : MetricDef)
    (older : List PointT) (p : PointT) (tail : List PointT) (rest : List (List PointT))
    (hp : lookupPoint p (pyLower m.aggType) = some none)
    (htail : ∀ t ∈ tail, lookupPoint t (pyLower m.aggType) = none)
    (hresp : orc.metricsResp = .ok (encodeMetricsResp ((older ++ p :: tail) :: rest))) :
    pyGetMetricValue (encodeDef m) orc.metricsResp = .val .null ∧
    (checkMetric cfg orc (encodeDef m)).1 =
      .exited UNKNOWN ("No value available for metric " ++ cfg.metric ++
        (match cfg.dimension with
         | some d => " and dimension " ++ d
         | none => "")) none ∧
    checkMetric cfg orc (encodeDef m) =
      checkMetric cfg { orc with metricsResp := .ok (encodeMetricsResp []) }
        (encodeDef m) := by
  have hnone : tail.reverse.find?
      (fun t => (lookupPoint t (pyLower m.aggType)).isSome) = none := by
    apply List.find?_eq_none.mpr
    intro t ht
    rw [htail t (List.mem_reverse.mp ht)]
    simp
  have hfirst : firstWithKey (pyLower m.aggType) (older ++ p :: tail).reverse = some p := by
    unfold firstWithKey
    rw [List.reverse_append, List.reverse_cons, List.append_assoc,
      find_append_of_none _ _ _ hnone, List.singleton_append, List.find?_cons]
    simp [hp]
  have hval : pyGetMetricValue (encodeDef m) orc.metricsResp = .val .null := by
    rw [hresp, gmv_encode, hfirst]
    show GMV.val (jvalOfOpt (lookupPoint p (pyLower m.aggType))) = GMV.val JVal.null
    rw [hp]
    rfl
  have hval2 : pyGetMetricValue (encodeDef m)
      (Oracle.metricsResp { orc with metricsResp := .ok (encodeMetricsResp []) }) =
      .val .null := rfl
  refine ⟨hval, ?_, ?_⟩
  · rw [checkMetric_null cfg orc _ hval]
  · rw [checkMetric_null cfg orc _ hval, checkMetric_null cfg _ _ hval2]

theorem spec_C10_witness :
    pyGetMetricValue (encodeDef sampleDef) orcNullNewest.metricsResp = .val .null ∧
    (checkMetric baseCfg orcNullNewest (encodeDef sampleDef)).1 =
      .exited UNKNOWN ("No value available for metric " ++ baseCfg.metric ++
        (match baseCfg.dimension with
         | some d => " and dimension " ++ d
         | none => "")) none ∧
    checkMetric baseCfg orcNullNewest (encodeDef sampleDef) =
      checkMetric baseCfg { orcNullNewest with metricsResp := .ok (encodeMetricsResp []) }
        (encodeDef sampleDef) :=
  spec_C10 baseCfg orcNullNewest sampleDef
    [[("average", some 72)]] [("average", none)] [[("total", some 1)]] []
    (by decide) (by decide) rfl

end AzureCheck
